import Mathlib

/-!
Shallow embedding of the 2N IP Intercom Home Assistant integration
(custom_components/2n_ip_intercom), covering the polling coordinator,
the switch / door command methods, the config flow and the camera
attributes, together with theorems settling the specification claims.
-/

namespace TwoNIntercom

/-- A parsed JSON object body, modelled as an association list from field
name to string value (every field the integration reads is a string). -/
abbrev Json := List (String × String)

/-- Python `dict.get(k)`: the value of the first binding of `k`, if any. -/
def Json.get? (j : Json) (k : String) : Option String :=
  (j.find? (fun p => p.1 == k)).map (fun p => p.2)

/-- Outcome of one HTTP GET as seen by the Python client code: either a
response carrying a status code and (when the body parses as JSON) a parsed
body, or one of the exceptions the code catches.  `response s none` is a
response whose body is not valid JSON (reading `.json()` raises). -/
inductive FetchResult where
  | response (status : Nat) (json : Option Json)
  | connectorError (msg : String)
  | clientError (msg : String)
  | timeoutError
deriving DecidableEq

/-- The single exception class `homeassistant...UpdateFailed` that
`coordinator.py` raises on every failure path of `_async_update_data`;
there is no separate auth-error class anywhere in the module. -/
inductive UpdateError where
  | updateFailed (msg : String)
deriving DecidableEq

/-- Translation of `TwoNIntercomDataUpdateCoordinator._async_update_data`
(coordinator.py lines 108-165; the class defines the method twice and this
second definition shadows the first under Python semantics).  A 401 status
raises `UpdateFailed("Invalid authentication credentials")`; any other
non-200 status, an invalid JSON body, a connection error, a client error or
a timeout also raise `UpdateFailed`; a 200 response with a valid body is
returned as-is (no merging with previous data). -/
def async_update_data (r : FetchResult) : Except UpdateError Json :=
  match r with
  | .response status json =>
      if status == 401 then
        .error (.updateFailed "Invalid authentication credentials")
      else if !(status == 200) then
        .error (.updateFailed ("Error communicating with API: Status " ++ toString status))
      else
        match json with
        | some data => .ok data
        | none => .error (.updateFailed "Invalid JSON response from API")
  | .connectorError msg => .error (.updateFailed ("Connection failed - " ++ msg))
  | .clientError msg => .error (.updateFailed ("Error communicating with API: " ++ msg))
  | .timeoutError => .error (.updateFailed "Timeout connecting")

/-- The coordinator's observable state: `data` is the State Cache
(`coordinator.data`), `lastUpdateSuccess` the availability flag
(`coordinator.last_update_success`), `updateInterval` the poll cadence in
seconds (fixed to 30 in `__init__`, coordinator.py line 45). -/
structure CoordinatorState where
  data : Json
  lastUpdateSuccess : Bool
  updateInterval : Nat
deriving DecidableEq

/-- Modelled from the spec: the host scheduled-refresh contract (spec
sections 4.2, 6 and 7).  The repository code only supplies
`_async_update_data`; the host coordinator base class — not part of src/ —
stores the returned value as `coordinator.data` on success, and on
`UpdateFailed` keeps the previous data, clears `last_update_success`, and
schedules the next refresh at the unchanged cadence.  The update result is
a value, so a failed poll never escapes as a crash. -/
def refreshStep (st : CoordinatorState) (r : FetchResult) : CoordinatorState :=
  match async_update_data r with
  | .ok d => { st with data := d, lastUpdateSuccess := true }
  | .error _ => { st with lastUpdateSuccess := false }

/-- A fresh coordinator before any successful poll (cache empty, default
30-second update interval from `__init__`). -/
def st0 : CoordinatorState :=
  { data := [], lastUpdateSuccess := false, updateInterval := 30 }

/-- Body of the first poll in the C1 scenario. -/
def poll1 : Json := [("doorState", "unlocked"), ("switch1State", "on")]

/-- Coordinator state after a successful poll returning `poll1` followed by
a successful poll returning the empty object. -/
def st_after_polls : CoordinatorState :=
  refreshStep (refreshStep st0 (.response 200 (some poll1))) (.response 200 (some []))

/-- C1 counterexample: after a successful poll whose body is
`(doorState unlocked, switch1State on)` followed by a successful poll whose
body is the empty object, the cached door state is NOT still `unlocked`
(nor is switch 1 still `on`): a successful poll replaces the cache
wholesale rather than merging present fields. -/
theorem C1_counterexample :
    ¬ (Json.get? st_after_polls.data "doorState" = some "unlocked" ∧
       Json.get? st_after_polls.data "switch1State" = some "on") := by
  decide

/-- C1 (amended): a successful poll replaces the State Cache entirely with
the JSON body of the response; fields absent from the new body are cleared
rather than retained, so after the empty-object poll both previously known
values are gone. -/
theorem C1_success_replaces_cache :
    (∀ st body, (refreshStep st (FetchResult.response 200 (some body))).data = body) ∧
    Json.get? st_after_polls.data "doorState" = none ∧
    Json.get? st_after_polls.data "switch1State" = none := by
  refine ⟨fun st body => rfl, by decide, by decide⟩

/-- Outcome of `async_setup_entry` (`__init__.py` lines 24-42): on a
successful first refresh the coordinator (holding the fetched cache) is
stored in `hass.data` and setup returns True; on any failure the broad
`except` re-raises `ConfigEntryNotReady` — the host framework's
try-again-later signal, under which the host retries setup automatically —
and nothing is stored. -/
inductive SetupOutcome where
  | ready (cache : Json)
  | not_ready
deriving DecidableEq

/-- Translation of `async_setup_entry` (`__init__.py`): the first refresh
runs `_async_update_data` once; every failure becomes `ConfigEntryNotReady`. -/
def async_setup_entry (firstRefresh : FetchResult) : SetupOutcome :=
  match async_update_data firstRefresh with
  | .ok d => .ready d
  | .error _ => .not_ready

/-- C2 counterexample: a 401 poll does not produce an error distinct from
transient failures, and it is retried like one.  The update error raised at
401 is the same `UpdateFailed` class raised on a timeout, and the resulting
coordinator state after a 401 poll is identical to the state after a
timeout — cache kept, availability cleared, next poll still scheduled at
the unchanged 30-second cadence. -/
theorem C2_counterexample :
    (∃ m, async_update_data (FetchResult.response 401 none) = .error (.updateFailed m)) ∧
    (∃ m, async_update_data FetchResult.timeoutError = .error (.updateFailed m)) ∧
    refreshStep st0 (FetchResult.response 401 none) = refreshStep st0 FetchResult.timeoutError ∧
    (refreshStep st0 (FetchResult.response 401 none)).updateInterval = 30 := by
  refine ⟨⟨"Invalid authentication credentials", rfl⟩, ⟨"Timeout connecting", rfl⟩, rfl, rfl⟩

/-- C2 (amended): a 401 poll raises the generic `UpdateFailed` exception
(message "Invalid authentication credentials") — the same class as every
transient failure — so the coordinator treats it exactly like a transient
failure (cache kept, availability flag cleared, cadence unchanged); a
failing first refresh makes setup raise `ConfigEntryNotReady` (which the
host retries) and stores no State Cache. -/
theorem C2_auth_failure_is_transient :
    (∀ j, async_update_data (FetchResult.response 401 j) =
        .error (.updateFailed "Invalid authentication credentials")) ∧
    async_setup_entry (FetchResult.response 401 none) = .not_ready ∧
    (∀ st, refreshStep st (FetchResult.response 401 none) =
        { st with lastUpdateSuccess := false }) := by
  refine ⟨fun j => rfl, rfl, fun st => rfl⟩

/-- A poll outcome the claims classify as transient: a connection failure,
a timeout, a client error, or an HTTP response whose status is neither 200
nor 401 (auth). -/
def transient_failure : FetchResult → Bool
  | .response s _ => !(s == 200) && !(s == 401)
  | .connectorError _ => true
  | .clientError _ => true
  | .timeoutError => true

/-- C6: a poll failing with a transient error raises `UpdateFailed` (a
caught, absorbed exception — never a crash), and the coordinator keeps the
State Cache unchanged in every field, only clearing the availability flag,
with the next poll still scheduled at the unchanged cadence. -/
theorem C6_transient_preserves_cache (st : CoordinatorState) (r : FetchResult)
    (h : transient_failure r = true) :
    refreshStep st r = { st with lastUpdateSuccess := false } ∧
    ∃ m, async_update_data r = .error (.updateFailed m) := by
  cases r with
  | response s j =>
      simp only [transient_failure, Bool.and_eq_true, Bool.not_eq_true'] at h
      obtain ⟨h200, h401⟩ := h
      refine ⟨?_, ?_⟩
      · simp [refreshStep, async_update_data, h200, h401]
      · exact ⟨"Error communicating with API: Status " ++ toString s,
          by simp [async_update_data, h200, h401]⟩
  | connectorError m => exact ⟨rfl, ⟨"Connection failed - " ++ m, rfl⟩⟩
  | clientError m => exact ⟨rfl, ⟨"Error communicating with API: " ++ m, rfl⟩⟩
  | timeoutError => exact ⟨rfl, ⟨"Timeout connecting", rfl⟩⟩

/-- C6 witness: the theorem applied to a concrete HTTP 500 poll against the
fresh coordinator. -/
theorem C6_witness :
    transient_failure (FetchResult.response 500 none) = true ∧
    (refreshStep st0 (FetchResult.response 500 none) = { st0 with lastUpdateSuccess := false } ∧
     ∃ m, async_update_data (FetchResult.response 500 none) = .error (.updateFailed m)) :=
  ⟨by decide, C6_transient_preserves_cache st0 (FetchResult.response 500 none) (by decide)⟩

/-- API endpoint paths from `const.py`. -/
def API_SYSTEM_STATUS : String := "/api/system/info"

def API_SWITCH_CONTROL : String := "/api/switch/ctrl"

def API_DOOR_CONTROL : String := "/api/door/ctrl"

/-- Path used by the verification GET in `switch.py`.  The module imports
`API_SWITCH_STATUS` from `const`, but `const.py` never defines it (in real
execution importing `switch.py` raises ImportError); the value is kept as
an abstract placeholder, and no claim depends on the concrete path. -/
def API_SWITCH_STATUS : String := "/api/switch/status"

/-- Per-switch modes, `const.py` lines 18-23. -/
inductive SwitchMode where
  | pulse
  | toggle
deriving DecidableEq

/-- Entry of `SWITCH_CONFIGS`, `const.py` lines 26-32. -/
structure SwitchConfig where
  mode : SwitchMode
  name : String
deriving DecidableEq

/-- Translation of `SWITCH_CONFIGS` (`const.py` lines 26-32).  No module in
src/ ever reads this table; only the repository test scripts do. -/
def SWITCH_CONFIGS : List (String × SwitchConfig) :=
  [ ("door", { mode := .toggle, name := "Door" })
  , ("switch_1", { mode := .toggle, name := "Switch 1" })
  , ("switch_2", { mode := .pulse, name := "Switch 2 (Pulse)" })
  , ("switch_3", { mode := .pulse, name := "Switch 3 (Pulse)" })
  , ("switch_4", { mode := .toggle, name := "Switch 4" }) ]

/-- One HTTP GET issued through Transport: endpoint path plus query
parameters. -/
structure HttpCall where
  path : String
  params : List (String × String)
deriving DecidableEq

/-- The control GET a switch command issues:
`GET /api/switch/ctrl?switch=<id>&action=<action>` (switch.py lines
212-218 and 254-260). -/
def switchCtrlCall (id : Nat) (action : String) : HttpCall :=
  { path := API_SWITCH_CONTROL, params := [("switch", toString id), ("action", action)] }

/-- The verification GET that follows a successful control call
(switch.py lines 227-232 and 269-274). -/
def switchStatusCall : HttpCall :=
  { path := API_SWITCH_STATUS, params := [] }

/-- Responses the environment gives to the two GETs a switch command can
issue: the control call and the follow-up verification call. -/
structure CommandEnv where
  ctrlResult : FetchResult
  statusResult : FetchResult
deriving DecidableEq

/-- Observable effects of one switch command invocation: the Transport
calls issued, whether `coordinator.async_request_refresh()` was reached,
whether an error was logged, and whether an exception escaped to the
caller (the enclosing `try`/`except Exception` swallows every failure, so
the method always returns normally). -/
structure CommandOutcome where
  calls : List HttpCall
  refreshRequested : Bool
  errorLogged : Bool
  raisedToCaller : Bool
deriving DecidableEq

/-- Bool test that one character list starts with another. -/
def charsPrefix : List Char → List Char → Bool
  | [], _ => true
  | _ :: _, [] => false
  | a :: as, b :: bs => a == b && charsPrefix as bs

/-- Bool test that `pat` occurs inside the haystack: some suffix of the
haystack starts with `pat`. -/
def charsContains (pat : List Char) : List Char → Bool
  | [] => pat.isEmpty
  | c :: rest => charsPrefix pat (c :: rest) || charsContains pat rest

/-- Bool test for `needle in haystack` on Python strings. -/
def strContains (s pat : String) : Bool :=
  charsContains pat.data s.data

/-- Rendering of a parsed JSON body used for the Python membership test
`f"switch{id}" in str(data)` (switch.py lines 235 and 277): the keys and
values joined into one string, so a key such as `switch1State` makes the
test for `switch1` succeed. -/
def pyStr : Json → String
  | [] => ""
  | [p] => p.1 ++ ": " ++ p.2
  | p :: rest => p.1 ++ ": " ++ p.2 ++ ", " ++ pyStr rest

/-- Translation of `TwoNIntercomSwitch.async_turn_on` / `async_turn_off`
(switch.py lines 203-285; the two methods are identical except for the
action string).  Control flow: issue the control GET; on a network
exception the outer `except` logs and returns; on status 401 or any other
non-200 status log and return; otherwise issue the verification GET:
on 200 with a valid body request a coordinator refresh exactly when
`switch<id>` occurs in the printed body, on any other outcome log.  No
path assigns to `coordinator.data` and no path re-raises. -/
def switchCommandOutcome (id : Nat) (action : String) (env : CommandEnv) : CommandOutcome :=
  match env.ctrlResult with
  | .response s _ =>
      if s == 401 then
        { calls := [switchCtrlCall id action], refreshRequested := false,
          errorLogged := true, raisedToCaller := false }
      else if !(s == 200) then
        { calls := [switchCtrlCall id action], refreshRequested := false,
          errorLogged := true, raisedToCaller := false }
      else
        match env.statusResult with
        | .response s2 j2 =>
            if s2 == 200 then
              match j2 with
              | some data =>
                  { calls := [switchCtrlCall id action, switchStatusCall],
                    refreshRequested := strContains (pyStr data) ("switch" ++ toString id),
                    errorLogged := false, raisedToCaller := false }
              | none =>
                  { calls := [switchCtrlCall id action, switchStatusCall],
                    refreshRequested := false, errorLogged := true, raisedToCaller := false }
            else
              { calls := [switchCtrlCall id action, switchStatusCall],
                refreshRequested := false, errorLogged := true, raisedToCaller := false }
        | _ =>
            { calls := [switchCtrlCall id action, switchStatusCall],
              refreshRequested := false, errorLogged := true, raisedToCaller := false }
  | _ =>
      { calls := [switchCtrlCall id action], refreshRequested := false,
        errorLogged := true, raisedToCaller := false }

/-- A switch command paired with the coordinator state in scope: the
method never assigns to `coordinator.data`, so the State Cache component
is returned unchanged on every path. -/
def switchCommand (id : Nat) (action : String) (env : CommandEnv) (st : CoordinatorState) :
    CommandOutcome × CoordinatorState :=
  (switchCommandOutcome id action env, st)

/-- Translation of `TwoNIntercomSwitch.is_on` (switch.py lines 198-201). -/
def TwoNIntercomSwitch.is_on (st : CoordinatorState) (id : Nat) : Bool :=
  Json.get? st.data ("switch" ++ toString id ++ "State") == some "on"

/-- Environment where both GETs of a command succeed and the verification
body mentions switch 1. -/
def env_ok : CommandEnv :=
  { ctrlResult := .response 200 (some []),
    statusResult := .response 200 (some [("switch1State", "on")]) }

/-- Environment where the control GET returns HTTP 500. -/
def env_500 : CommandEnv :=
  { ctrlResult := .response 500 none,
    statusResult := .response 200 (some []) }

/-- Coordinator state whose cache reports switch 1 off. -/
def st_sw_off : CoordinatorState :=
  { data := [("switch1State", "off")], lastUpdateSuccess := true, updateInterval := 30 }

/-- C3 counterexample: switch 2 is configured with pulse mode in
`SWITCH_CONFIGS`, yet requesting it off issues a Transport call — the
control GET `/api/switch/ctrl?switch=2&action=off` — so an `off` action is
sent for a pulse switch. -/
theorem C3_counterexample :
    ((SWITCH_CONFIGS.find? (fun p => p.1 == "switch_2")).map (fun p => p.2.mode) =
      some SwitchMode.pulse) ∧
    (switchCommand 2 "off" env_ok st_sw_off).1.calls ≠ [] ∧
    (switchCommand 2 "off" env_ok st_sw_off).1.calls.head? = some (switchCtrlCall 2 "off") := by
  refine ⟨by decide, by decide, by decide⟩

/-- C3 (amended): `async_turn_off` never consults the configured switch
mode (no src/ module reads `SWITCH_CONFIGS`) and always issues the control
GET with `action=off` as its first Transport call, for every switch id and
every environment — in particular for the pulse-configured switch 2. -/
theorem C3_turn_off_always_sends :
    (∀ id env st, (switchCommand id "off" env st).1.calls.head? =
        some (switchCtrlCall id "off")) ∧
    ((SWITCH_CONFIGS.find? (fun p => p.1 == "switch_2")).map (fun p => p.2.mode) =
      some SwitchMode.pulse) := by
  refine ⟨?_, by decide⟩
  intro id env st
  rcases env with ⟨ec, es⟩
  cases ec with
  | response s j =>
      by_cases h1 : s == 401
      · simp [switchCommand, switchCommandOutcome, h1]
      · by_cases h2 : s == 200
        · cases es with
          | response s2 j2 =>
              by_cases h3 : s2 == 200
              · cases j2 <;> simp [switchCommand, switchCommandOutcome, h1, h2, h3]
              · simp [switchCommand, switchCommandOutcome, h1, h2, h3]
          | connectorError m => simp [switchCommand, switchCommandOutcome, h1, h2]
          | clientError m => simp [switchCommand, switchCommandOutcome, h1, h2]
          | timeoutError => simp [switchCommand, switchCommandOutcome, h1, h2]
        · simp [switchCommand, switchCommandOutcome, h1, h2]
  | connectorError m => rfl
  | clientError m => rfl
  | timeoutError => rfl

/-- C4 counterexample: switch 1 is in toggle mode per `SWITCH_CONFIGS`, the
`setSwitch(1, on)` command succeeds end to end (no error logged, refresh
requested), yet reading `is_on` immediately afterwards — before the next
poll completes — still returns the pre-command value `false`: the State
Cache receives no optimistic update at command time. -/
theorem C4_counterexample :
    ((SWITCH_CONFIGS.find? (fun p => p.1 == "switch_1")).map (fun p => p.2.mode) =
      some SwitchMode.toggle) ∧
    (switchCommand 1 "on" env_ok st_sw_off).1.errorLogged = false ∧
    (switchCommand 1 "on" env_ok st_sw_off).1.refreshRequested = true ∧
    ¬ (TwoNIntercomSwitch.is_on (switchCommand 1 "on" env_ok st_sw_off).2 1 = true) := by
  refine ⟨by decide, by decide, by decide, by decide⟩

/-- C4 (amended): `async_turn_on` performs no optimistic cache update — the
State Cache is unchanged on every path at command time (the commanded
value only appears once the requested refresh completes), so an immediate
read returns the pre-command state, as in the concrete successful
turn-on of toggle-mode switch 1 whose cached state stays `off`. -/
theorem C4_no_optimistic_update :
    (∀ id action env st, (switchCommand id action env st).2 = st) ∧
    TwoNIntercomSwitch.is_on (switchCommand 1 "on" env_ok st_sw_off).2 1 =
      TwoNIntercomSwitch.is_on st_sw_off 1 := by
  refine ⟨fun id action env st => rfl, rfl⟩

/-- C5 counterexample: when the control GET returns HTTP 500, the command
neither surfaces a failure to the caller (the exception paths are all
swallowed after logging) nor triggers any refresh — the method returns
before the verification and refresh steps. -/
theorem C5_counterexample :
    (switchCommand 2 "on" env_500 st_sw_off).1.refreshRequested = false ∧
    (switchCommand 2 "on" env_500 st_sw_off).1.raisedToCaller = false := by
  refine ⟨by decide, by decide⟩

/-- C5 (amended): a control call failing with HTTP 500 makes the command
log the error and return normally (nothing is raised to the caller), with
the State Cache unchanged, exactly one Transport call issued, and no
refresh requested — the forced refresh only happens after a successful
control call whose verification GET returns 200 and mentions the switch. -/
theorem C5_failed_command_logs_only :
    ∀ st, switchCommand 2 "on" env_500 st =
      ({ calls := [switchCtrlCall 2 "on"], refreshRequested := false,
         errorLogged := true, raisedToCaller := false }, st) := by
  intro st
  rfl

/-- Translation of `async_validate_input` (coordinator.py lines 167-182):
one GET against the status endpoint; returns `status == 200`; any
`aiohttp.ClientError` (which includes connector errors) is caught and
yields `false`; an `asyncio.TimeoutError` is not caught there and
propagates (`error` case).  Note a 401 response produces `ok false`, not
an exception. -/
def async_validate_input : FetchResult → Except String Bool
  | .response s _ => .ok (s == 200)
  | .connectorError _ => .ok false
  | .clientError _ => .ok false
  | .timeoutError => .error "TimeoutError"

/-- Result of the config flow's user step: either a config entry is
created (with its title and host) or the form is shown again with a base
error. -/
inductive FlowResult where
  | create_entry (title : String) (host : String)
  | show_form (base_error : Option String)
deriving DecidableEq

/-- Translation of `ConfigFlow.async_step_user` (config_flow.py lines
34-73) for a submitted form: a coordinator is built and
`async_validate_input` is awaited, but its boolean result is never bound
or inspected (line 51), so the flow proceeds to `async_create_entry`
whether validation returned true or false; only a propagating exception
reaches the broad `except`, which re-renders the form with base error
"unknown".  The title is the optional name, defaulting to the host. -/
def async_step_user (host : String) (name : Option String) (r : FetchResult) : FlowResult :=
  match async_validate_input r with
  | .ok _ => .create_entry (name.getD host) host
  | .error _ => .show_form (some "unknown")

/-- C7: validation of the device connection fails — the validation GET
returns HTTP 401, so `async_validate_input` evaluates to `false` — yet the
user step still creates the config entry, because the flow discards the
validation result.  The claim (and the validation function's stated
purpose) says setup is blocked with no entry created. -/
theorem C7_entry_created_despite_failed_validation :
    async_validate_input (FetchResult.response 401 none) = .ok false ∧
    async_step_user "192.168.1.100" none (FetchResult.response 401 none) =
      .create_entry "192.168.1.100" "192.168.1.100" := by
  refine ⟨rfl, rfl⟩

/-- Modelled from the spec (section 6, external interfaces): the vendor
device's door relay — `GET /api/door/ctrl?switch=1&action=on` unlocks the
door, `action=off` locks it, and `GET /api/system/info` reports the current
`doorState`.  The device itself is outside the repository; this model is
needed to speak about the final cached state after commands and polls. -/
structure Device where
  doorUnlocked : Bool
deriving DecidableEq

/-- Device reaction to a door-control call. -/
def Device.applyDoorCtrl (d : Device) (action : String) : Device :=
  if action == "on" then { doorUnlocked := true }
  else if action == "off" then { doorUnlocked := false }
  else d

/-- Status body the device reports on a poll. -/
def Device.statusJson (d : Device) : Json :=
  [("doorState", if d.doorUnlocked then "unlocked" else "locked")]

/-- The door-control GET issued by `TwoNIntercomDoorSwitch.async_turn_on`
(switch.py lines 125-131): `params={"switch": "1", "action": "on"}`. -/
def door_ctrl_on_call : HttpCall :=
  { path := API_DOOR_CONTROL, params := [("switch", "1"), ("action", "on")] }

/-- The status poll GET issued when a requested refresh runs. -/
def system_status_call : HttpCall :=
  { path := API_SYSTEM_STATUS, params := [] }

/-- A device, the coordinator facing it, and the log of Transport calls
issued so far. -/
structure World where
  device : Device
  coord : CoordinatorState
  trace : List HttpCall
deriving DecidableEq

/-- One invocation of `TwoNIntercomDoorSwitch.async_turn_on` against a
healthy device (both GETs answer 200), followed by the out-of-cycle
refresh the method always requests (switch.py line 136): the door-control
GET reaches the device, then the requested poll fetches the device's
status and the coordinator stores it. -/
def door_turn_on_then_poll (w : World) : World :=
  let d := w.device.applyDoorCtrl "on"
  let coord := refreshStep w.coord (FetchResult.response 200 (some d.statusJson))
  { device := d, coord := coord, trace := w.trace ++ [door_ctrl_on_call, system_status_call] }

/-- Translation of `TwoNIntercomDoorSwitch.is_on` (switch.py lines
111-114). -/
def TwoNIntercomDoorSwitch.is_on (st : CoordinatorState) : Bool :=
  Json.get? st.data "doorState" == some "unlocked"

/-- C8: issuing `setDoor(unlocked)` twice in a row, from either initial
door position, issues exactly two Transport calls to the door-control
endpoint — each `switch=1&action=on` — and ends with the single cached
door state `unlocked`. -/
theorem C8_setdoor_twice_idempotent (b : Bool) :
    let w0 : World := { device := { doorUnlocked := b }, coord := st0, trace := [] }
    let w2 := door_turn_on_then_poll (door_turn_on_then_poll w0)
    w2.trace.filter (fun c => c.path == API_DOOR_CONTROL) =
      [door_ctrl_on_call, door_ctrl_on_call] ∧
    Json.get? w2.coord.data "doorState" = some "unlocked" ∧
    TwoNIntercomDoorSwitch.is_on w2.coord = true := by
  cases b <;> exact ⟨by decide, by decide, by decide⟩

/-- Modelled from the spec: the hold/release indicator entities for a
bistable switch (spec sections 3, 4.3 and 8).  No module under src/
implements them — only the repository test scripts reference the
`/api/switch/hold` command pair — so the local-only indicator state is
taken from the spec's words: a hold indicator, and a transient release
indicator that stays pressed for a fixed delay measured in time-units
before auto-resetting. -/
structure IndicatorState where
  holdIndicator : Bool
  releaseTicks : Nat
deriving DecidableEq

/-- The release indicator reads as pressed while its timer is running. -/
def releaseIndicator (s : IndicatorState) : Bool :=
  !(s.releaseTicks == 0)

/-- Modelled from the spec: the fixed auto-reset delay of the release
indicator, one time-unit. -/
def RELEASE_RESET_DELAY : Nat := 1

/-- Modelled from the spec: triggering the release action sets the release
indicator (arming its auto-reset timer) and clears the hold indicator of
the same switch. -/
def release_switch (_s : IndicatorState) : IndicatorState :=
  { holdIndicator := false, releaseTicks := RELEASE_RESET_DELAY }

/-- Modelled from the spec: one elapsed time-unit of the indicator's
auto-reset timer. -/
def indicator_tick (s : IndicatorState) : IndicatorState :=
  { s with releaseTicks := s.releaseTicks - 1 }

/-- C9: from any prior indicator state of a bistable switch, triggering
release makes the release indicator true and clears the hold indicator of
that switch, and after 1 time-unit the release indicator has reverted to
false on its own. -/
theorem C9_release_indicator_momentary (s : IndicatorState) :
    releaseIndicator (release_switch s) = true ∧
    (release_switch s).holdIndicator = false ∧
    releaseIndicator (indicator_tick (release_switch s)) = false := by
  refine ⟨rfl, rfl, rfl⟩

/-- The connection parameters the coordinator keeps (coordinator.py lines
32-35): host, port (default 80), optional username and password. -/
structure DeviceConnection where
  host : String
  port : Nat
  username : Option String
  password : Option String
deriving DecidableEq

/-- Vendor default credentials, `const.py` lines 5-6. -/
def DEFAULT_USERNAME : String := "admin"

def DEFAULT_PASSWORD : String := "2n"

/-- Python `cred or default` on an optional string: the default is used
when the value is missing or empty (falsy). -/
def orDefault (cred : Option String) (dflt : String) : String :=
  match cred with
  | some s => if s == "" then dflt else s
  | none => dflt

/-- Translation of `TwoNCamera.extra_state_attributes` (camera.py lines
129-138): both attribute values interpolate the effective username and
password in plaintext. -/
def extra_state_attributes (c : DeviceConnection) : Json :=
  [ ("rtsp_url", "rtsp://" ++ orDefault c.username DEFAULT_USERNAME ++ ":" ++
      orDefault c.password DEFAULT_PASSWORD ++ "@" ++ c.host ++ ":554/h264_stream")
  , ("snapshot_url", "http://" ++ orDefault c.username DEFAULT_USERNAME ++ ":" ++
      orDefault c.password DEFAULT_PASSWORD ++ "@" ++ c.host ++ "/api/camera/snapshot") ]

/-- C10: for every configuration, the camera's extra state attributes
contain the effective plaintext password — the configured one, or the
vendor default "2n" when none is configured — embedded in both the
`rtsp_url` and the `snapshot_url` values. -/
theorem C10_password_in_urls (c : DeviceConnection) :
    (∃ pre post, Json.get? (extra_state_attributes c) "rtsp_url" =
        some (pre ++ orDefault c.password DEFAULT_PASSWORD ++ post)) ∧
    (∃ pre post, Json.get? (extra_state_attributes c) "snapshot_url" =
        some (pre ++ orDefault c.password DEFAULT_PASSWORD ++ post)) ∧
    orDefault none DEFAULT_PASSWORD = "2n" := by
  refine ⟨⟨"rtsp://" ++ orDefault c.username DEFAULT_USERNAME ++ ":",
      "@" ++ c.host ++ ":554/h264_stream", ?_⟩,
    ⟨"http://" ++ orDefault c.username DEFAULT_USERNAME ++ ":",
      "@" ++ c.host ++ "/api/camera/snapshot", ?_⟩, rfl⟩
  · simp [Json.get?, extra_state_attributes, String.append_assoc]
  · simp [Json.get?, extra_state_attributes, String.append_assoc]

end TwoNIntercom
